import Mathlib

/-!
Verification of the LM Studio gateway (`llm_server.py`, with the prototype
relay in `v1.py`) against its specification.

The Python code is shallowly embedded: each HTTP handler becomes a pure
function from an explicit model of the backend's behaviour to the sequence
of values the handler returns or yields.  CPython string operations
(`startswith`, slicing, `strip`, `rstrip`) are modelled character-wise on
`String.data`.  Floats that are only stored and compared (never computed
with) are modelled as rationals; JSON bodies that are only passed through
are modelled at JSON-value granularity by an opaque `String`.
-/

/-! ## Python string helpers (character-level, mirroring CPython semantics) -/

/-- Python `s.startswith(pre)`. -/
def pyStartswith (s pre : String) : Bool := pre.data.isPrefixOf s.data

/-- Python `s[n:]` (character-based slicing from index `n`). -/
def pySliceFrom (s : String) (n : Nat) : String := String.mk (s.data.drop n)

/-- Python `str.isspace` members used by `str.strip()`:
space, tab, newline, carriage return, vertical tab, form feed. -/
def pyIsSpace (c : Char) : Bool :=
  c == ' ' || c == '\t' || c == '\n' || c == '\r' || c == '\x0b' || c == '\x0c'

/-- Python `s.strip()`: remove leading and trailing whitespace. -/
def pyStrip (s : String) : String :=
  String.mk (((s.data.dropWhile pyIsSpace).reverse.dropWhile pyIsSpace).reverse)

/-- Python `s.rstrip('/')`: remove every trailing `'/'`. -/
def pyRstripSlash (s : String) : String :=
  String.mk ((s.data.reverse.dropWhile (fun c => c == '/')).reverse)

/-! ## Backend configuration (`Config`, `/config` endpoints; llm_server.py 34-99) -/

/-- `class Config`: the mutable gateway configuration, modelled as an
explicitly passed value. -/
structure Config where
  lm_studio_url : String
  api_base : String
deriving DecidableEq

/-- `Config.__init__` (llm_server.py 36-38): the initial configuration. -/
def config : Config :=
  { lm_studio_url := "http://localhost:1234"
    api_base := "http://localhost:1234/v1" }

/-- `Config.update_url` (llm_server.py 41-43):
`self.lm_studio_url = url.rstrip('/')` and
`self.api_base = f"{self.lm_studio_url}/v1"`. -/
def Config.update_url (_c : Config) (url : String) : Config :=
  let u := pyRstripSlash url
  { lm_studio_url := u, api_base := u ++ "/v1" }

/-- `POST /config` handler `update_config` (llm_server.py 88-94).  The JSON
request body is modelled as an association list; `"lm_studio_url" in request`
becomes a lookup.  Returns the new configuration state together with the
response payload `{"status": "updated", "config": {"lm_studio_url": ...}}`,
modelled as the pair of the status string and the reported url. -/
def update_config (c : Config) (body : List (String × String)) :
    Config × (String × String) :=
  let c2 := match List.lookup "lm_studio_url" body with
    | some url => c.update_url url
    | none => c
  (c2, ("updated", c2.lm_studio_url))

/-- `GET /config` handler `get_config` (llm_server.py 96-99):
returns `{"lm_studio_url": ..., "api_base": ...}`. -/
def get_config (c : Config) : String × String :=
  (c.lm_studio_url, c.api_base)

/-! ## Model catalog (`GET /v1/models`; llm_server.py 102-129) -/

/-- Shape of the backend's reply body to the models query, as the handler
distinguishes it: either a JSON object with a `"data"` key whose entries
each carry an `"id"` (collected here as the list of those ids), or any
other JSON shape. -/
inductive LMModelsBody where
  | withData (ids : List String)
  | other
deriving DecidableEq

/-- Placeholder model id used for every fallback catalog (llm_server.py 118,
124, 129). -/
def FALLBACK_MODEL_ID : String := "lm-studio-model"

/-- `GET /v1/models` handler `list_models` (llm_server.py 102-129).  The
backend call is modelled by its outcome: `none` when the request raises
(network failure, timeout, malformed entry), `some (status, body)` when an
HTTP reply arrives.  The catalog is modelled as the list of descriptor ids
(the synthesized `object`/`created`/`owned_by` fields of `ModelInfo` carry
no information relevant to the claims; `created` is a wall-clock read). -/
def list_models : Option (Nat × LMModelsBody) → List String
  | none => [FALLBACK_MODEL_ID]
  | some (status, body) =>
    if status == 200 then
      match body with
      | .withData ids => ids
      | .other => [FALLBACK_MODEL_ID]
    else [FALLBACK_MODEL_ID]

/-! ## Completion request building (`chat_completions`; llm_server.py 132-150) -/

/-- Pydantic `Message` (llm_server.py 48-50). -/
structure Message where
  role : String
  content : String
deriving DecidableEq

/-- The `stop` field: Python `Union[str, List[str]]`. -/
inductive StopValue where
  | str (s : String)
  | list (l : List String)
deriving DecidableEq

/-- Python truthiness of a `stop` value: an empty string and an empty list
are falsy. -/
def stopTruthy : StopValue → Bool
  | .str s => !(s == "")
  | .list l => !l.isEmpty

/-- Pydantic `ChatCompletionRequest` (llm_server.py 52-61), after parsing
(pydantic defaults already applied: `temperature` 0.7, `top_p` 1.0,
`stream` false, the optionals `None`).  An explicit JSON `null` for
`top_p`/`max_tokens`/`stop` arrives as `none`. -/
structure ChatCompletionRequest where
  model : String
  messages : List Message
  temperature : ℚ
  max_tokens : Option Int
  top_p : Option ℚ
  frequency_penalty : ℚ
  presence_penalty : ℚ
  stream : Bool
  stop : Option StopValue
deriving DecidableEq

/-- The backend-bound request dict built by `chat_completions`
(llm_server.py 137-150).  `none` in an optional field means the key is
absent from the dict; for `top_p` the key, when present, may itself carry
the value `null` (hence `Option (Option ℚ)`). -/
structure LMStudioRequest where
  model : String
  messages : List (String × String)
  temperature : ℚ
  stream : Bool
  max_tokens : Option Int
  top_p : Option (Option ℚ)
  stop : Option StopValue
deriving DecidableEq

/-- The dict construction in `chat_completions` (llm_server.py 137-150):
`model`, `messages` (role and content), `temperature`, `stream` are copied
unconditionally; then `if request.max_tokens:` (Python truthiness: `None`
and `0` both fail), `if request.top_p != 1.0:` (`None != 1.0` is true),
`if request.stop:` (Python truthiness: `None`, `""` and `[]` all fail). -/
def build_lm_studio_request (r : ChatCompletionRequest) : LMStudioRequest :=
  { model := r.model
    messages := r.messages.map (fun m => (m.role, m.content))
    temperature := r.temperature
    stream := r.stream
    max_tokens := match r.max_tokens with
      | some n => if n ≠ 0 then some n else none
      | none => none
    top_p := if r.top_p ≠ some 1 then some r.top_p else none
    stop := match r.stop with
      | some v => if stopTruthy v then some v else none
      | none => none }

/-! ## Streaming relay (`stream_chat_completion`; llm_server.py 169-199) -/

/-- The terminal sentinel frame `"data: [DONE]\n\n"` yielded at
llm_server.py 189 (and v1.py 40/44). -/
def DONE_FRAME : String := "data: [DONE]\n\n"

/-- `chunk.startswith("data: ")` (llm_server.py 186). -/
def isDataLine (l : String) : Bool := pyStartswith l "data: "

/-- `data = chunk[6:]` (llm_server.py 187). -/
def linePayload (l : String) : String := pySliceFrom l 6

/-- `data.strip() == "[DONE]"` (llm_server.py 188). -/
def isDoneLine (l : String) : Bool := pyStrip (linePayload l) == "[DONE]"

/-- The `async for chunk in response.aiter_lines()` loop body
(llm_server.py 185-195), as a function from the backend's line sequence to
the yielded frames: a line without the data framing is skipped; a framed
terminal payload yields the sentinel and breaks; any other framed payload
is re-emitted unmodified under the gateway's own framing.  (The inner
`try`/`except json.JSONDecodeError` around the yield is dead: the f-string
never raises.) -/
def relayLines : List String → List String
  | [] => []
  | l :: rest =>
    if isDataLine l then
      if isDoneLine l then [DONE_FRAME]
      else ("data: " ++ linePayload l ++ "\n\n") :: relayLines rest
    else relayLines rest

/-- Whether the loop in llm_server.py 185-195 hits the `break` (a framed
terminal payload) while consuming the given lines. -/
def relayTerminated : List String → Bool
  | [] => false
  | l :: rest =>
    if isDataLine l then
      if isDoneLine l then true else relayTerminated rest
    else relayTerminated rest

/-- The synthetic error chunk of llm_server.py 180-182 for a non-200
backend status: `json.dumps({'error': {'message': f"LM Studio error:
{status}", 'type': 'api_error'}})` under the data framing. -/
def apiErrorChunk (status : Nat) : String :=
  "data: \x7b\x22error\x22: \x7b\x22message\x22: \x22LM Studio error: " ++
    toString status ++ "\x22, \x22type\x22: \x22api_error\x22\x7d\x7d\n\n"

/-- The synthetic error chunk of llm_server.py 197-199 for a mid-stream
exception (JSON escaping of the embedded message is not modelled). -/
def connectionErrorChunk (msg : String) : String :=
  "data: \x7b\x22error\x22: \x7b\x22message\x22: \x22" ++ msg ++
    "\x22, \x22type\x22: \x22connection_error\x22\x7d\x7d\n\n"

/-- Behaviour of the backend during one streaming request:
`httpError status` — the stream opens with a non-200 status (no lines
consumed); `ok lines` — status 200 and the whole line sequence is
delivered; `okThenDrop lines msg` — status 200, the lines are delivered and
then the transport raises an exception with text `msg`. -/
inductive BackendStream where
  | httpError (status : Nat)
  | ok (lines : List String)
  | okThenDrop (lines : List String) (errMsg : String)

/-- The generator `stream_chat_completion` (llm_server.py 169-199) as a
function from the backend's behaviour to the full sequence of yielded
frames.  On `okThenDrop`, if the loop already hit its `break` the generator
has returned before the exception can be observed. -/
def stream_chat_completion : BackendStream → List String
  | .httpError status => [apiErrorChunk status]
  | .ok lines => relayLines lines
  | .okThenDrop lines errMsg =>
    if relayTerminated lines then relayLines lines
    else relayLines lines ++ [connectionErrorChunk errMsg]

/-! ## Non-streaming path (`non_stream_chat_completion`; llm_server.py 201-221) -/

/-- Outcome of the backend call in the non-streaming path: an HTTP reply
(status and body), a timeout (`httpx.TimeoutException`), or another
transport exception with text `msg`. -/
inductive BackendCall where
  | reply (status : Nat) (body : String)
  | timeout
  | transportError (msg : String)

/-- What the caller of `POST /v1/chat/completions` (stream = false)
receives: either the backend body passed through, or an HTTP error with a
status code and a detail message. -/
inductive NonStreamResult where
  | passthrough (body : String)
  | error (status : Nat) (detail : String)
deriving DecidableEq

/-- `non_stream_chat_completion` (llm_server.py 201-221).  On status 200
the body is returned unmodified (`response.json()`; bodies are modelled at
JSON-value granularity).  On any other status the code raises
`HTTPException(response.status_code, f"LM Studio error: {status} - {text}")`
— but that raise happens inside the same `try`, so the blanket
`except Exception as e` at line 219 catches it and re-raises
`HTTPException(500, str(e))`, where `str` of a starlette `HTTPException`
is `f"{status_code}: {detail}"`.  A timeout becomes 504, any other
transport failure becomes 500 with the exception text. -/
def non_stream_chat_completion : BackendCall → NonStreamResult
  | .reply status body =>
    if status == 200 then .passthrough body
    else
      .error 500 (toString status ++ ": " ++
        ("LM Studio error: " ++ toString status ++ " - " ++ body))
  | .timeout => .error 504 "Request timeout"
  | .transportError msg => .error 500 msg

/-! ## Prototype relay (`generate` in v1.py 26-44) -/

/-- One chunk of the upstream completion iterator in v1.py: its `id`,
`created` timestamp and `choices[0].delta.content`. -/
structure V1Chunk where
  id : String
  created : Nat
  content : Option String
deriving DecidableEq

/-- The content frame yielded at v1.py 37 (`json.dumps` of the rebuilt
chunk envelope; JSON escaping of the content is not modelled). -/
def v1ChunkFrame (model : String) (c : V1Chunk) (content : String) : String :=
  "data: \x7b\x22id\x22: \x22chatcmpl-" ++ c.id ++
    "\x22, \x22object\x22: \x22chat.completion.chunk\x22, \x22created\x22: " ++
    toString c.created ++ ", \x22model\x22: \x22" ++ model ++
    "\x22, \x22choices\x22: [\x7b\x22index\x22: 0, \x22delta\x22: \x7b\x22content\x22: \x22" ++
    content ++ "\x22\x7d, \x22finish_reason\x22: null\x7d]\x7d\n\n"

/-- The finish frame yielded at v1.py 39 (empty delta, finish_reason
"stop"), built from the loop variable left over after iteration — i.e. the
last chunk. -/
def v1FinishFrame (model : String) (c : V1Chunk) : String :=
  "data: \x7b\x22id\x22: \x22chatcmpl-" ++ c.id ++
    "\x22, \x22object\x22: \x22chat.completion.chunk\x22, \x22created\x22: " ++
    toString c.created ++ ", \x22model\x22: \x22" ++ model ++
    "\x22, \x22choices\x22: [\x7b\x22index\x22: 0, \x22delta\x22: \x7b\x7d, \x22finish_reason\x22: \x22stop\x22\x7d]\x7d\n\n"

/-- The error frame yielded at v1.py 42. -/
def v1ErrorFrame (msg : String) : String :=
  "data: \x7b\x22error\x22: \x7b\x22message\x22: \x22" ++ msg ++
    "\x22, \x22type\x22: \x22internal_error\x22\x7d\x7d\n\n"

/-- Behaviour of the upstream client in v1.py's `generate`: the create call
either raises with text `msg` or yields a finite chunk sequence. -/
inductive V1Completion where
  | ok (chunks : List V1Chunk)
  | createFails (msg : String)

/-- The generator `generate` (v1.py 26-44) as the full sequence of yielded
frames.  On success: one content frame per chunk with non-`None` delta
content, the finish frame (v1.py 39, referencing the loop variable — a
`NameError` when the iterator was empty, caught by the `except` and turned
into an error frame), then `"data: [DONE]\n\n"` at v1.py 40, then the
`finally` block yields `"data: [DONE]\n\n"` once more at v1.py 44.  On an
exception: the error frame, then the `finally` sentinel. -/
def v1_generate (model : String) : V1Completion → List String
  | .createFails msg => [v1ErrorFrame msg, DONE_FRAME]
  | .ok [] => [v1ErrorFrame "name \x27chunk\x27 is not defined", DONE_FRAME]
  | .ok (c :: cs) =>
    ((c :: cs).filterMap (fun ch => ch.content.map (fun ct => v1ChunkFrame model ch ct))) ++
      [v1FinishFrame model ((c :: cs).getLast (List.cons_ne_nil c cs)),
        DONE_FRAME, DONE_FRAME]

/-! ## Derived stream observations used by the claims -/

/-- The data-framed non-terminal payloads of a backend line sequence, in
order: what the spec calls the well-formed non-terminal chunks the backend
emitted. -/
def nonTerminalPayloads (lines : List String) : List String :=
  lines.filterMap (fun l =>
    if isDataLine l && !(isDoneLine l) then some (linePayload l) else none)

/-- A backend line sequence is a well-formed stream when no data-framed
non-terminal line occurs after the first terminal marker — the spec's data
model: "the stream is finite and terminates with an explicit end-of-stream
marker". -/
def wfStream : List String → Bool
  | [] => true
  | l :: rest =>
    if isDataLine l then
      if isDoneLine l then rest.all (fun x => !(isDataLine x && !(isDoneLine x)))
      else wfStream rest
    else wfStream rest

/-! ## Helper lemmas -/

/-- The head of `dropWhile p l`, when it exists, does not satisfy `p`. -/
theorem head_dropWhile_false {α : Type} (p : α → Bool) :
    ∀ (l : List α) (x : α), (l.dropWhile p).head? = some x → p x = false := by
  intro l
  induction l with
  | nil => intro x h; simp at h
  | cons a t ih =>
    intro x h
    rw [List.dropWhile_cons] at h
    by_cases hp : p a = true
    · rw [if_pos hp] at h
      exact ih x h
    · rw [if_neg hp] at h
      simp at h
      subst h
      simpa using hp

/-- `pyRstripSlash` leaves no trailing `'/'`. -/
theorem pyRstripSlash_no_trailing (s : String) :
    (pyRstripSlash s).data.getLast? ≠ some '/' := by
  intro hcon
  have hlist :
      ((s.data.reverse.dropWhile (fun c => c == '/')).reverse).getLast? = some '/' := hcon
  rw [List.getLast?_reverse] at hlist
  have := head_dropWhile_false (fun c => c == '/') s.data.reverse '/' hlist
  simp at this

/-! ## Theorems for the claims -/

/-- Claim C1 (code bug): the claim states that every streaming response
ends with exactly one terminal sentinel, emitted at most once.  The code
violates this in both relays: `stream_chat_completion` on a non-2xx backend
status yields only the synthetic `api_error` chunk and returns — zero
sentinels — while v1.py's `generate` yields the sentinel both at the end of
its `try` block and again in its `finally` block, so a successful stream
carries the sentinel twice. -/
theorem C1_sentinel_termination_bug :
    stream_chat_completion (BackendStream.httpError 503) = [apiErrorChunk 503] ∧
    (stream_chat_completion (BackendStream.httpError 503)).countP
      (fun s => s == DONE_FRAME) = 0 ∧
    (v1_generate "m" (V1Completion.ok
      [{ id := "1", created := 0, content := some "hi" }])).countP
      (fun s => s == DONE_FRAME) = 2 := by
  refine ⟨rfl, ?_, ?_⟩ <;> rfl

/-- Claim C2 (code bug): the claim states that on a non-200 backend status
the caller receives the backend's own status code.  In
`non_stream_chat_completion` the `HTTPException(response.status_code, ...)`
raised at llm_server.py 215 is caught by the blanket `except Exception` at
line 219 and replaced by `HTTPException(500, str(e))`: for a 503 backend
reply the caller sees HTTP 500 (the backend's diagnostic text survives only
inside the message). -/
theorem C2_backend_status_swallowed :
    non_stream_chat_completion (BackendCall.reply 503 "busy") =
      NonStreamResult.error 500 "503: LM Studio error: 503 - busy" := rfl

/-- Claim C3: on a 200 backend reply the non-streaming path returns the
backend body unmodified (pass-through, no schema re-validation). -/
theorem C3_passthrough_200 (body : String) :
    non_stream_chat_completion (BackendCall.reply 200 body) =
      NonStreamResult.passthrough body := rfl

/-- Claim C5, counterexample: the claim states the catalog is never empty
for any backend behaviour, but a successful backend reply of the recognized
shape with an empty `"data"` list makes `list_models` return the empty
catalog. -/
theorem C5_counterexample_empty_data :
    list_models (some (200, LMModelsBody.withData [])) = [] := rfl

/-- Claim C5, amended: the catalog is exactly the one-element fallback with
the placeholder id on a non-200 status, on an unrecognized body shape, and
on a raised exception; on a 200 reply with the recognized shape it is the
backend's id list verbatim — hence non-empty whenever that list is
non-empty (the sole exception to the claim is a recognized reply with an
empty model list). -/
theorem C5_models_fallback :
    (∀ ids : List String, ids ≠ [] →
        list_models (some (200, LMModelsBody.withData ids)) = ids ∧
        list_models (some (200, LMModelsBody.withData ids)) ≠ []) ∧
    (∀ (status : Nat) (body : LMModelsBody), status ≠ 200 →
        list_models (some (status, body)) = [FALLBACK_MODEL_ID]) ∧
    list_models (some (200, LMModelsBody.other)) = [FALLBACK_MODEL_ID] ∧
    list_models none = [FALLBACK_MODEL_ID] := by
  refine ⟨fun ids hne => ⟨rfl, hne⟩, fun status body hs => ?_, rfl, rfl⟩
  simp [list_models, hs]

/-- Claim C5, witness: the amended theorem applied to a concrete successful
reply and a concrete 503 reply. -/
theorem C5_models_fallback_witness :
    list_models (some (200, LMModelsBody.withData ["m1", "m2"])) = ["m1", "m2"] ∧
    list_models (some (503, LMModelsBody.other)) = [FALLBACK_MODEL_ID] :=
  ⟨(C5_models_fallback.1 ["m1", "m2"] (by decide)).1,
    C5_models_fallback.2.1 503 LMModelsBody.other (by decide)⟩

/-- Concrete request exhibiting the C6 counterexample: `max_tokens` is
present with value 0. -/
def r0 : ChatCompletionRequest :=
  { model := "x"
    messages := [{ role := "user", content := "hi" }]
    temperature := 7/10
    max_tokens := some 0
    top_p := some 1
    frequency_penalty := 0
    presence_penalty := 0
    stream := false
    stop := none }

/-- Claim C6, counterexample: the claim states `max_tokens` is included
whenever present; but `if request.max_tokens:` uses Python truthiness, so a
present `max_tokens = 0` is dropped from the backend-bound request. -/
theorem C6_counterexample_zero_max_tokens :
    r0.max_tokens = some 0 ∧ (build_lm_studio_request r0).max_tokens = none :=
  ⟨rfl, rfl⟩

/-- Claim C6, amended: the backend-bound request copies `model`, `messages`
(role and content only), `temperature` and the `stream` flag
unconditionally, and includes `max_tokens` exactly when it is present with
a nonzero value, `top_p` exactly when it differs from 1.0, and `stop`
exactly when it is present and non-empty (Python truthiness); otherwise the
keys are absent. -/
theorem C6_request_building (r : ChatCompletionRequest) :
    (build_lm_studio_request r).model = r.model ∧
    (build_lm_studio_request r).messages =
      r.messages.map (fun m => (m.role, m.content)) ∧
    (build_lm_studio_request r).temperature = r.temperature ∧
    (build_lm_studio_request r).stream = r.stream ∧
    (∀ n : Int, (build_lm_studio_request r).max_tokens = some n ↔
      r.max_tokens = some n ∧ n ≠ 0) ∧
    (∀ v : Option ℚ, (build_lm_studio_request r).top_p = some v ↔
      r.top_p = v ∧ v ≠ some 1) ∧
    (∀ s : StopValue, (build_lm_studio_request r).stop = some s ↔
      r.stop = some s ∧ stopTruthy s = true) := by
  refine ⟨rfl, rfl, rfl, rfl, fun n => ?_, fun v => ?_, fun s => ?_⟩
  · cases hmt : r.max_tokens with
    | none => simp [build_lm_studio_request, hmt]
    | some m =>
      by_cases hm : m = 0
      · simp [build_lm_studio_request, hmt, hm]
        rintro rfl
        simp
      · simp only [build_lm_studio_request, hmt, if_pos hm, ne_eq]
        constructor
        · rintro h
          cases h
          exact ⟨rfl, hm⟩
        · rintro ⟨h, _⟩
          cases h
          rfl
  · by_cases ht : r.top_p = some 1
    · simp [build_lm_studio_request, ht]
      rintro rfl
      simp
    · simp only [build_lm_studio_request, ht, ne_eq, not_false_eq_true, if_pos]
      constructor
      · rintro h
        cases h
        exact ⟨rfl, ht⟩
      · rintro ⟨h, _⟩
        cases h
        rfl
  · cases hst : r.stop with
    | none => simp [build_lm_studio_request, hst]
    | some w =>
      by_cases hw : stopTruthy w = true
      · simp [build_lm_studio_request, hst, hw]
        rintro rfl
        exact hw
      · simp [build_lm_studio_request, hst, hw]
        rintro rfl
        simpa using hw

/-- Concrete request used by the C6 witness: `max_tokens` present and
nonzero. -/
def r1 : ChatCompletionRequest :=
  { model := "x"
    messages := [{ role := "user", content := "hi" }]
    temperature := 7/10
    max_tokens := some 5
    top_p := some 1
    frequency_penalty := 0
    presence_penalty := 0
    stream := true
    stop := none }

/-- Claim C6, witness: the amended characterization instantiated at a
concrete request. -/
theorem C6_request_building_witness :
    (build_lm_studio_request r1).max_tokens = some 5 ↔
      r1.max_tokens = some 5 ∧ (5 : Int) ≠ 0 :=
  (C6_request_building r1).2.2.2.2.1 5

/-- Claim C7: a backend line that does not carry the data framing is
skipped and is not fatal — the relay's output over any surrounding lines is
exactly what it would have been had the malformed line not been there, so
subsequent well-formed chunks are still emitted. -/
theorem C7_malformed_line_skipped (pre : List String) (b : String)
    (post : List String) (hb : isDataLine b = false) :
    relayLines (pre ++ b :: post) = relayLines (pre ++ post) := by
  induction pre with
  | nil => simp [relayLines, hb]
  | cons l t ih =>
    by_cases hd : isDataLine l = true
    · by_cases hdone : isDoneLine l = true
      · simp [relayLines, hd, hdone]
      · simp [relayLines, hd, hdone, ih]
    · simp [relayLines, hd, ih]

/-- Claim C7, witness: a malformed line between two well-formed chunks is
dropped and the second chunk is still relayed. -/
theorem C7_malformed_line_skipped_witness :
    isDataLine "not a frame" = false ∧
    relayLines ["data: a", "not a frame", "data: b"] =
      relayLines ["data: a", "data: b"] :=
  ⟨rfl, C7_malformed_line_skipped ["data: a"] "not a frame" ["data: b"] rfl⟩

/-- Claim C8: updating the backend address trims every trailing separator,
recomputes the versioned API path from the trimmed address, and the update
is visible to the next request — `get_config` after `update_config` reports
exactly the trimmed base address (no trailing `'/'`) together with the
recomputed `/v1` path. -/
theorem C8_update_url_visible (c : Config) (u : String) :
    get_config ((update_config c [("lm_studio_url", u)]).1) =
      (pyRstripSlash u, pyRstripSlash u ++ "/v1") ∧
    ((update_config c [("lm_studio_url", u)]).1).api_base =
      ((update_config c [("lm_studio_url", u)]).1).lm_studio_url ++ "/v1" ∧
    ((update_config c [("lm_studio_url", u)]).1).lm_studio_url.data.getLast? ≠
      some '/' :=
  ⟨rfl, rfl, pyRstripSlash_no_trailing u⟩

/-- Claim C9: a `POST /config` body without the `"lm_studio_url"` key
leaves the configuration unchanged, yet the endpoint still answers
`"updated"` with the current configuration. -/
theorem C9_config_noop (c : Config) (body : List (String × String))
    (h : List.lookup "lm_studio_url" body = none) :
    update_config c body = (c, ("updated", c.lm_studio_url)) := by
  simp [update_config, h]

/-- Claim C9, witness: a body carrying only an unrelated key leaves the
initial configuration untouched. -/
theorem C9_config_noop_witness :
    List.lookup "lm_studio_url" [("timeout", "300")] = none ∧
    update_config config [("timeout", "300")] =
      (config, ("updated", "http://localhost:1234")) :=
  ⟨rfl, C9_config_noop config [("timeout", "300")] rfl⟩

/-- Claim C4: over a well-formed backend stream (the spec's data model: the
terminal marker ends the stream, so no data-framed non-terminal line
follows it), the relay's output is exactly the backend's data-framed
non-terminal payloads, in order, each re-emitted unmodified under the
gateway's own framing, followed by the sentinel exactly when the backend
delivered the terminal marker — no reordering, duplication, splitting,
merging, or loss. -/
theorem C4_order_content_preservation (lines : List String)
    (h : wfStream lines = true) :
    relayLines lines =
      (nonTerminalPayloads lines).map (fun p => "data: " ++ p ++ "\n\n") ++
        (if relayTerminated lines then [DONE_FRAME] else []) := by
  induction lines with
  | nil => simp [relayLines, nonTerminalPayloads, relayTerminated]
  | cons l rest ih =>
    by_cases hd : isDataLine l = true
    · by_cases hdone : isDoneLine l = true
      · rw [wfStream, if_pos hd, if_pos hdone] at h
        simp [relayLines, nonTerminalPayloads, relayTerminated, hd, hdone]
        intro a ha hda
        have h2 := List.all_eq_true.mp h a ha
        simpa [hda] using h2
      · rw [wfStream, if_pos hd, if_neg hdone] at h
        simp [relayLines, nonTerminalPayloads, relayTerminated, hd, hdone, ih h]
    · rw [wfStream, if_neg hd] at h
      simp [relayLines, nonTerminalPayloads, relayTerminated, hd, ih h]

/-- Claim C4, witness: a concrete well-formed stream with an interleaved
unframed line; both payloads are relayed in order and framed, then the
sentinel. -/
theorem C4_order_content_preservation_witness :
    wfStream ["data: a", "noise", "data: b", "data: [DONE]"] = true ∧
    relayLines ["data: a", "noise", "data: b", "data: [DONE]"] =
      ["data: a\n\n", "data: b\n\n", "data: [DONE]\n\n"] :=
  ⟨rfl,
    (C4_order_content_preservation
      ["data: a", "noise", "data: b", "data: [DONE]"] rfl).trans rfl⟩

/-- Claim C10: once a data-framed terminal marker is reached, the relay
emits nothing further — its output does not depend on any backend line
after the marker, so no later line is ever forwarded. -/
theorem C10_nothing_after_done (pre : List String) (t : String)
    (post : List String) (hd : isDataLine t = true)
    (hdone : isDoneLine t = true) :
    relayLines (pre ++ t :: post) = relayLines (pre ++ [t]) := by
  induction pre with
  | nil => simp [relayLines, hd, hdone]
  | cons l u ih =>
    by_cases hld : isDataLine l = true
    · by_cases hldone : isDoneLine l = true
      · simp [relayLines, hld, hldone]
      · simp [relayLines, hld, hldone, ih]
    · simp [relayLines, hld, ih]

/-- Claim C10, witness: a data chunk sent after the terminal marker is not
forwarded. -/
theorem C10_nothing_after_done_witness :
    isDataLine "data: [DONE]" = true ∧ isDoneLine "data: [DONE]" = true ∧
    relayLines ["data: a", "data: [DONE]", "data: x"] =
      relayLines ["data: a", "data: [DONE]"] :=
  ⟨rfl, rfl, C10_nothing_after_done ["data: a"] "data: [DONE]" ["data: x"] rfl rfl⟩
